import Mathlib

/-!
Shallow embedding of homework.py, a polling bot that fetches homework review
statuses from an HTTP API and relays them to a chat via a messaging client.

Modelling conventions:
* Decoded JSON payloads are `PyVal` trees (dict, list, str, int, bool, None).
* Python exceptions raised by the program are the `PyExc` sum; fallible
  functions return `Except PyExc α`.
* The HTTP layer (requests.get / response.json) is an external collaborator:
  one call per cycle is modelled by an `HttpOutcome` input describing what the
  library call does.  Likewise the chat client: `String → SendOutcome`.
* Logging and sleeping are side effects with no bearing on state or on any
  claim; they are not modelled.
* Message text: the source interpolates the params dict, the headers dict
  (which embeds PRACTICUM_TOKEN, fixed at module import) and Python reprs of
  values into error strings.  Those renderings are modelled by deterministic
  functions of the same data (`params_text`, `HEADERS_TEXT`, `pyStr`); the
  exact punctuation of a Python dict repr is simplified, which no claim
  depends on: claims depend only on which template fires, on which data is
  interpolated, and on the exact text of HOMEWORK_STATUS_CHANGED and the
  verdict table, which are rendered exactly.
-/

/-- Python values as decoded from a JSON body (plus None and bool, which the
code can encounter). -/
inductive PyVal where
  | dict : List (String × PyVal) → PyVal
  | list : List PyVal → PyVal
  | str : String → PyVal
  | int : Int → PyVal
  | bool : Bool → PyVal
  | none : PyVal

/-- Python exception classes the program raises or catches, as a sum.
`connectionError`, `timeout` and `httpError` are the requests library
subclasses of RequestException that main catches individually; `apiError` is
the custom APIError; `otherExc` stands for any other Exception subclass
(e.g. AttributeError). -/
inductive PyExc where
  | connectionError : String → PyExc
  | timeout : String → PyExc
  | httpError : String → PyExc
  | apiError : String → PyExc
  | keyError : String → PyExc
  | typeError : String → PyExc
  | valueError : String → PyExc
  | otherExc : String → PyExc

/-- Python type name of a value, as used in error messages via type(x).__name__. -/
def typeName : PyVal → String
  | .dict _ => "dict"
  | .list _ => "list"
  | .str _ => "str"
  | .int _ => "int"
  | .bool _ => "bool"
  | .none => "NoneType"

/-- Python str() of a value, used when formatting values into messages.
Container renderings are simplified (see file header); scalar renderings are
exact. -/
def pyStr : PyVal → String
  | .dict _ => "dict"
  | .list _ => "list"
  | .str s => s
  | .int n => toString n
  | .bool true => "True"
  | .bool false => "False"
  | .none => "None"

/-- First-match lookup in an association list, modelling Python dict lookup
(a Python dict has unique keys, so first match is exact). -/
def lookupKey (k : String) : List (String × PyVal) → Option PyVal
  | [] => Option.none
  | (k2, v) :: rest => if k2 = k then Option.some v else lookupKey k rest

/-- Python d.get(k): Some value or None; only dicts have .get, but the code
only calls it on values already known to be dicts. -/
def dict_get (v : PyVal) (k : String) : Option PyVal :=
  match v with
  | .dict kvs => lookupKey k kvs
  | _ => Option.none

/-- Substring test: does pat occur in s (Python membership for strings).
For a nonempty pattern, splitOn yields more than one piece exactly when the
pattern occurs. -/
def strContains (s pat : String) : Bool := (s.splitOn pat).length > 1

/-- Python membership test k in v for a string k: key membership for dicts,
element membership for lists, substring for strings, TypeError otherwise. -/
def pyIn (k : String) : PyVal → Except PyExc Bool
  | .dict kvs => .ok (lookupKey k kvs).isSome
  | .list xs => .ok (xs.any (fun x => match x with | .str s2 => s2 = k | _ => false))
  | .str s => .ok (strContains s k)
  | v => .error (.typeError ("argument of type " ++ typeName v ++ " is not iterable"))

/-- Python subscript v[k] with a string key: dict lookup (KeyError when
absent), TypeError on every other type. -/
def pySubscript (v : PyVal) (k : String) : Except PyExc PyVal :=
  match v with
  | .dict kvs =>
    match lookupKey k kvs with
    | Option.some x => .ok x
    | Option.none => .error (.keyError k)
  | .list _ => .error (.typeError "list indices must be integers or slices, not str")
  | .str _ => .error (.typeError "string indices must be integers")
  | v2 => .error (.typeError (typeName v2 ++ " object is not subscriptable"))

/-- Python truthiness of a value. -/
def pyTruthy : PyVal → Bool
  | .dict kvs => !kvs.isEmpty
  | .list xs => !xs.isEmpty
  | .str s => s != ""
  | .int n => n != 0
  | .bool b => b
  | .none => false

/-! ## Module constants and message templates (homework.py lines 25-73) -/

def RETRY_PERIOD : Nat := 600

def ENDPOINT : String := "https://practicum.yandex.ru/api/user_api/homework_statuses/"

/-- Rendering of the HEADERS dict.  HEADERS embeds PRACTICUM_TOKEN, which is
read once at module import and constant for the whole run, so a constant
string is a faithful rendering within a run. -/
def HEADERS_TEXT : String := "Authorization: OAuth PRACTICUM_TOKEN"

/-- Rendering of the params dict built from the timestamp cursor. -/
def params_text (timestamp : PyVal) : String := "from_date=" ++ pyStr timestamp

/-- The static three-entry verdict table HOMEWORK_VERDICTS. -/
def HOMEWORK_VERDICTS : String → Option String
  | "approved" => Option.some "Работа проверена: ревьюеру всё понравилось. Ура!"
  | "reviewing" => Option.some "Работа взята на проверку ревьюером."
  | "rejected" => Option.some "Работа проверена: у ревьюера есть замечания."
  | _ => Option.none

def HOMEWORK_STATUS_CHANGED (homework_name verdict : String) : String :=
  "Изменился статус проверки работы \"" ++ homework_name ++ "\". " ++ verdict

/-- Python renders the missing-variables list with its list repr; the
bracketed comma-joined rendering used here carries the same names. -/
def MISSING_ENV_VARS (missing_vars : List String) : String :=
  "Отсутствуют обязательные переменные окружения: [" ++
    String.intercalate ", " missing_vars ++ "]"

def API_ENDPOINT_UNAVAILABLE (status_code : Nat) (timestamp : PyVal) : String :=
  "Эндпоинт " ++ ENDPOINT ++ " недоступен. Код ответа: " ++ toString status_code ++
    ". Параметры запроса: " ++ params_text timestamp ++ ", заголовки: " ++ HEADERS_TEXT

def API_ERROR_RESPONSE (error_info : String) (timestamp : PyVal) : String :=
  "API вернуло ошибку: " ++ error_info ++ ". Эндпоинт: " ++ ENDPOINT ++
    ", параметры: " ++ params_text timestamp ++ ", заголовки: " ++ HEADERS_TEXT

def API_REQUEST_ERROR (error : String) (timestamp : PyVal) : String :=
  "Ошибка при запросе к API: " ++ error ++ ". Эндпоинт: " ++ ENDPOINT ++
    ", параметры: " ++ params_text timestamp ++ ", заголовки: " ++ HEADERS_TEXT

def JSON_DECODE_ERROR (error : String) (timestamp : PyVal) : String :=
  "Ошибка декодирования JSON: " ++ error ++ ". Эндпоинт: " ++ ENDPOINT ++
    ", параметры: " ++ params_text timestamp ++ ", заголовки: " ++ HEADERS_TEXT

def API_RESPONSE_TYPE_ERROR (type_name : String) : String :=
  "Ответ API должен быть словарем, получен " ++ type_name

def MISSING_HOMEWORKS_KEY : String := "В ответе API отсутствует ключ \"homeworks\""

def HOMEWORKS_TYPE_ERROR (type_name : String) : String :=
  "Значение ключа \"homeworks\" должно быть списком, получен " ++ type_name

def MISSING_KEY_ERROR (key : String) : String :=
  "В ответе API отсутствует ключ \"" ++ key ++ "\""

def UNKNOWN_STATUS_ERROR (status : String) : String :=
  "Неизвестный статус работы: " ++ status

def CONNECTION_ERROR (error : String) : String :=
  "Ошибка соединения при запросе к API: " ++ error

def TIMEOUT_ERROR (error : String) : String :=
  "Превышено время ожидания ответа API: " ++ error

def HTTP_ERROR (error : String) : String :=
  "HTTP-ошибка при запросе к API: " ++ error

def API_RESPONSE_ERROR (error : String) : String :=
  "Ошибка в ответе API: " ++ error

def KEY_ACCESS_ERROR (error : String) : String :=
  "Ошибка доступа к ключу в данных: " ++ error

def TYPE_ERROR (error : String) : String :=
  "Ошибка типа данных: " ++ error

def UNEXPECTED_ERROR (error : String) : String :=
  "Непредвиденная ошибка: " ++ error

/-! ## check_tokens (homework.py lines 82-91) -/

/-- The three environment variables read at module import: os.getenv gives
None when unset, otherwise the (possibly empty) string. -/
structure Env where
  PRACTICUM_TOKEN : Option String
  TELEGRAM_TOKEN : Option String
  TELEGRAM_CHAT_ID : Option String

/-- Truthiness of an environment value: None and the empty string are falsy,
exactly as not globals()[name] computes. -/
def env_truthy : Option String → Bool
  | Option.none => false
  | Option.some s => s != ""

/-- The missing_tokens list comprehension of check_tokens. -/
def missing_tokens (env : Env) : List String :=
  (([("PRACTICUM_TOKEN", env.PRACTICUM_TOKEN),
     ("TELEGRAM_TOKEN", env.TELEGRAM_TOKEN),
     ("TELEGRAM_CHAT_ID", env.TELEGRAM_CHAT_ID)].filter
       (fun p => !env_truthy p.2)).map Prod.fst)

/-- check_tokens: raises ValueError listing the missing variables when any of
the three is falsy. -/
def check_tokens (env : Env) : Except PyExc Unit :=
  if missing_tokens env ≠ [] then
    .error (.valueError (MISSING_ENV_VARS (missing_tokens env)))
  else .ok ()

/-! ## send_message (homework.py lines 94-105) -/

/-- Behaviour of one bot.send_message call: either it returns normally or it
raises some Exception (the text is the exception rendering). -/
inductive SendOutcome where
  | success : SendOutcome
  | raise : String → SendOutcome

/-- send_message: tries the chat client call and converts any raised
Exception into the return value false; returns true on normal return.  The
except Exception clause makes the function total: no exception propagates. -/
def send_message (send : String → SendOutcome) (message : String) : Bool :=
  match send message with
  | .success => true
  | .raise _ => false

/-! ## get_api_answer (homework.py lines 108-154) -/

/-- Exceptions requests.get itself can raise: all are RequestException
subclasses. -/
inductive ReqExc where
  | connectionError : String → ReqExc
  | timeout : String → ReqExc
  | otherRequest : String → ReqExc

/-- Text rendering of a requests exception, interpolated into messages. -/
def reqExcText : ReqExc → String
  | .connectionError s => s
  | .timeout s => s
  | .otherRequest s => s

/-- What the single requests.get call of one cycle does: raise a
RequestException, or produce a response with a status code and a body whose
json() decoding either fails (with an error text) or yields a value. -/
inductive HttpOutcome where
  | raises : ReqExc → HttpOutcome
  | response : Nat → Except String PyVal → HttpOutcome

/-- get_api_answer.  Faithful control flow of the try/except block:
* requests.get raising any RequestException is caught by the
  except requests.RequestException clause and re-raised as
  APIError(API_REQUEST_ERROR).
* a non-OK status raises HTTPError(API_ENDPOINT_UNAVAILABLE) inside the try;
  HTTPError is a RequestException subclass, so the same except clause catches
  it and re-raises APIError(API_REQUEST_ERROR) wrapping that text.
* a json() decode failure raises ValueError, caught by the except ValueError
  clause and re-raised as ValueError(JSON_DECODE_ERROR).
* a payload whose top level contains a code or error key raises
  APIError(API_ERROR_RESPONSE); APIError matches neither local except clause,
  so it propagates as raised.  The in tests and the .get calls follow Python
  semantics on non-dict payloads (TypeError for non-iterables, AttributeError
  for iterables without .get). -/
def get_api_answer (http : HttpOutcome) (timestamp : PyVal) : Except PyExc PyVal :=
  match http with
  | .raises e => .error (.apiError (API_REQUEST_ERROR (reqExcText e) timestamp))
  | .response status_code body =>
    if status_code ≠ 200 then
      .error (.apiError
        (API_REQUEST_ERROR (API_ENDPOINT_UNAVAILABLE status_code timestamp) timestamp))
    else
      match body with
      | .error err => .error (.valueError (JSON_DECODE_ERROR err timestamp))
      | .ok json_response =>
        match pyIn "code" json_response with
        | .error e => .error e
        | .ok hasCode =>
          match (if hasCode then .ok true else pyIn "error" json_response :
              Except PyExc Bool) with
          | .error e => .error e
          | .ok hasErr =>
            if hasErr then
              match json_response with
              | .dict kvs =>
                let code_val := (lookupKey "code" kvs).getD PyVal.none
                let error_info :=
                  if pyTruthy code_val then code_val
                  else (lookupKey "error" kvs).getD PyVal.none
                .error (.apiError
                  (API_ERROR_RESPONSE (pyStr error_info) timestamp))
              | v => .error (.otherExc
                  (typeName v ++ " object has no attribute get"))
            else .ok json_response

/-! ## check_response (homework.py lines 157-170) -/

/-- check_response: TypeError when the payload is not a dict, KeyError when
the homeworks key is absent, TypeError when its value is not a list;
otherwise returns the homeworks list. -/
def check_response (response : PyVal) : Except PyExc (List PyVal) :=
  match response with
  | .dict kvs =>
    match lookupKey "homeworks" kvs with
    | Option.none => .error (.keyError MISSING_HOMEWORKS_KEY)
    | Option.some homeworks =>
      match homeworks with
      | .list xs => .ok xs
      | hv => .error (.typeError (HOMEWORKS_TYPE_ERROR (typeName hv)))
  | v => .error (.typeError (API_RESPONSE_TYPE_ERROR (typeName v)))

/-! ## parse_status (homework.py lines 173-185) -/

/-- Membership of a value among the keys of HOMEWORK_VERDICTS, with the
Python caveat that unhashable values (lists, dicts) raise TypeError inside
the in test. -/
def verdict_lookup : PyVal → Except PyExc (Option String)
  | .str s => .ok (HOMEWORK_VERDICTS s)
  | .int _ => .ok Option.none
  | .bool _ => .ok Option.none
  | .none => .ok Option.none
  | v => .error (.typeError ("unhashable type: " ++ typeName v))

/-- parse_status: checks homework_name then status for membership, raising
KeyError(MISSING_KEY_ERROR key) at the first absent one; reads the status,
raises ValueError(UNKNOWN_STATUS_ERROR) when it is not a verdict-table key;
otherwise renders HOMEWORK_STATUS_CHANGED from the name and the verdict. -/
def parse_status (homework : PyVal) : Except PyExc String :=
  match pyIn "homework_name" homework with
  | .error e => .error e
  | .ok hasName =>
    if !hasName then .error (.keyError (MISSING_KEY_ERROR "homework_name"))
    else
      match pyIn "status" homework with
      | .error e => .error e
      | .ok hasStatus =>
        if !hasStatus then .error (.keyError (MISSING_KEY_ERROR "status"))
        else
          match pySubscript homework "status" with
          | .error e => .error e
          | .ok status =>
            match verdict_lookup status with
            | .error e => .error e
            | .ok Option.none =>
              .error (.valueError (UNKNOWN_STATUS_ERROR (pyStr status)))
            | .ok (Option.some verdict) =>
              match pySubscript homework "homework_name" with
              | .error e => .error e
              | .ok nameVal => .ok (HOMEWORK_STATUS_CHANGED (pyStr nameVal) verdict)

/-! ## main (homework.py lines 188-249)

The infinite while loop is modelled on an arbitrary finite prefix of cycles:
each cycle consumes one `CycleInput` describing what the external world (the
HTTP library and the chat client) does during that cycle.  time.sleep and
logging are effect-free for the state and are not modelled. -/

/-- External behaviour during one loop iteration: what the single
requests.get call does, and what each bot.send_message call would do on a
given message. -/
structure CycleInput where
  http : HttpOutcome
  send : String → SendOutcome

/-- The dispatch of the except chain of main (lines 220-247): each caught
exception class is formatted with its template.  There is no except
ValueError clause, so ValueError falls through to except Exception and is
formatted as UNEXPECTED_ERROR.  Python str() of KeyError adds quotes around
the argument; the rendering here interpolates the argument text itself,
which no claim depends on. -/
def format_loop_error : PyExc → String
  | .connectionError s => CONNECTION_ERROR s
  | .timeout s => TIMEOUT_ERROR s
  | .httpError s => HTTP_ERROR s
  | .apiError s => API_RESPONSE_ERROR s
  | .keyError s => KEY_ACCESS_ERROR s
  | .typeError s => TYPE_ERROR s
  | .valueError s => UNEXPECTED_ERROR s
  | .otherExc s => UNEXPECTED_ERROR s

/-- Python is None test on a value. -/
def is_none : PyVal → Bool
  | .none => true
  | _ => false

/-- Lines 199-219: the part of the try body after get_api_answer succeeded.
Returns the new cursor and the notification attempts made (message text
paired with the delivery outcome), or the exception the body raised.
new_timestamp is response.get with the current_date key, which yields Python
None both when the key is absent and when the key holds JSON null; the
is None test then takes the log-and-continue path in either case:
* new_timestamp is None (key absent or null): no attempt, cursor unchanged;
* nonempty homeworks: render the first record; on delivered send the cursor
  becomes new_timestamp, on failed send it is unchanged;
* empty homeworks: no attempt, cursor becomes new_timestamp. -/
def process_response (send : String → SendOutcome) (timestamp : PyVal)
    (response : PyVal) : Except PyExc (PyVal × List (String × Bool)) :=
  match check_response response with
  | .error e => .error e
  | .ok homeworks =>
    let new_timestamp := (dict_get response "current_date").getD PyVal.none
    if is_none new_timestamp then .ok (timestamp, [])
    else
      match homeworks with
      | homework :: _ =>
        match parse_status homework with
        | .error e => .error e
        | .ok message =>
          if send_message send message then .ok (new_timestamp, [(message, true)])
          else .ok (timestamp, [(message, false)])
      | [] => .ok (new_timestamp, [])

/-- The whole try body of one cycle (lines 197-219). -/
def try_body (inp : CycleInput) (timestamp : PyVal) :
    Except PyExc (PyVal × List (String × Bool)) :=
  match get_api_answer inp.http timestamp with
  | .error e => .error e
  | .ok response => process_response inp.send timestamp response

/-- One full cycle of the while loop: run the try body; when it raises,
format the exception by the except chain and attempt to send the formatted
message (the cursor is unchanged on that path).  Every send_message call of
the cycle is recorded as an attempt. -/
def run_cycle (inp : CycleInput) (timestamp : PyVal) :
    PyVal × List (String × Bool) :=
  match try_body inp timestamp with
  | .ok r => r
  | .error e =>
    let error_msg := format_loop_error e
    (timestamp, [(error_msg, send_message inp.send error_msg)])

/-- A finite prefix of the infinite loop: the final cursor and the per-cycle
lists of notification attempts. -/
def run_cycles : List CycleInput → PyVal → PyVal × List (List (String × Bool))
  | [], timestamp => (timestamp, [])
  | inp :: rest, timestamp =>
    let r := run_cycle inp timestamp
    let rr := run_cycles rest r.1
    (rr.1, r.2 :: rr.2)

/-- main: check_tokens runs once before anything else; when it raises, the
ValueError propagates out of main uncaught, the process exits non-zero, and
no cycle (hence no network call) happens — the error result carries no cycle
trace by construction.  When it passes, the loop runs (modelled on the given
finite prefix of cycle inputs) starting from the cursor int(time.time()),
the start_time parameter. -/
def homework.main (env : Env) (inputs : List CycleInput) (start_time : Int) :
    Except PyExc (PyVal × List (List (String × Bool))) :=
  match check_tokens env with
  | .error e => .error e
  | .ok _ => .ok (run_cycles inputs (.int start_time))

/-- Total number of notification attempts in a trace of cycles. -/
def attempts (trace : List (List (String × Bool))) : Nat :=
  (trace.map List.length).sum

/-- Discriminator used to state validation claims: is the value a Python dict. -/
def isDict : PyVal → Bool
  | .dict _ => true
  | _ => false

/-- Discriminator used to state validation claims: is the value a Python list. -/
def isList : PyVal → Bool
  | .list _ => true
  | _ => false

/-! ## Helper lemmas -/

/-- Characterization of one cycle: either the cursor is unchanged, or the try
body ran to a success that set it to the response's current_date value (which
in that case is present and not null), with the success shape (empty
homeworks, or first record rendered and delivered) recorded. -/
lemma run_cycle_cursor_spec (inp : CycleInput) (ts : PyVal) :
    (run_cycle inp ts).1 = ts ∨
    ∃ response homeworks new_timestamp,
      get_api_answer inp.http ts = .ok response ∧
      check_response response = .ok homeworks ∧
      dict_get response "current_date" = Option.some new_timestamp ∧
      is_none new_timestamp = false ∧
      (run_cycle inp ts).1 = new_timestamp ∧
      (homeworks = [] ∨
        ∃ hw rest message, homeworks = hw :: rest ∧ parse_status hw = .ok message ∧
          send_message inp.send message = true) := by
  cases hga : get_api_answer inp.http ts with
  | error e => left; simp [run_cycle, try_body, hga]
  | ok response =>
    cases hcr : check_response response with
    | error e => left; simp [run_cycle, try_body, process_response, hga, hcr]
    | ok homeworks =>
      cases hcd : dict_get response "current_date" with
      | none =>
        left; simp [run_cycle, try_body, process_response, hga, hcr, hcd, is_none]
      | some nt =>
        cases hn : is_none nt with
        | true =>
          left; simp [run_cycle, try_body, process_response, hga, hcr, hcd, hn]
        | false =>
          cases homeworks with
          | nil =>
            right
            refine ⟨response, [], nt, rfl, hcr, hcd, hn, ?_, Or.inl rfl⟩
            simp [run_cycle, try_body, process_response, hga, hcr, hcd, hn]
          | cons hw rest =>
            cases hps : parse_status hw with
            | error e =>
              left
              simp [run_cycle, try_body, process_response, hga, hcr, hcd, hn, hps]
            | ok message =>
              cases hsm : send_message inp.send message with
              | false =>
                left
                simp [run_cycle, try_body, process_response, hga, hcr, hcd, hn, hps,
                  hsm]
              | true =>
                right
                refine ⟨response, hw :: rest, nt, rfl, hcr, hcd, hn, ?_,
                  Or.inr ⟨hw, rest, message, rfl, hps, hsm⟩⟩
                simp [run_cycle, try_body, process_response, hga, hcr, hcd, hn, hps,
                  hsm]

/-- Normal form of missing_tokens: one name per falsy variable, in
declaration order. -/
lemma missing_tokens_eq (env : Env) :
    missing_tokens env =
      (if env_truthy env.PRACTICUM_TOKEN then [] else ["PRACTICUM_TOKEN"]) ++
      (if env_truthy env.TELEGRAM_TOKEN then [] else ["TELEGRAM_TOKEN"]) ++
      (if env_truthy env.TELEGRAM_CHAT_ID then [] else ["TELEGRAM_CHAT_ID"]) := by
  rcases env with ⟨t1, t2, t3⟩
  cases h1 : env_truthy t1 <;> cases h2 : env_truthy t2 <;> cases h3 : env_truthy t3 <;>
    simp [missing_tokens, h1, h2, h3]

/-! ## Theorems for the claims -/

/-- Claim C1, counterexample: two consecutive cycles that fail identically
(HTTP status 500 twice, with chat delivery succeeding) make TWO notification
attempts carrying the identical formatted error string, not exactly one as
the claim states: main keeps no last-error state at all, so nothing is
suppressed. -/
theorem C1_counterexample :
    (let inp : CycleInput := ⟨.response 500 (.ok (.dict [])), fun _ => .success⟩
     let trace := (run_cycles [inp, inp] (.int 100)).2
     attempts trace = 2 ∧ trace.head! = trace.tail.head! ∧ (trace.head!).length = 1) :=
  ⟨rfl, rfl, rfl⟩

/-- Claim C1, amended: there is no duplicate-error suppression.  Every cycle
whose try body raises makes exactly one notification attempt with the
formatted error, regardless of what any previous cycle did; in particular a
repeated identical failure is reported again each cycle (shown here on two
consecutive cycles with the same input, whose attempts carry the identical
message because the cursor is unchanged by the failure). -/
theorem C1_failing_cycles_always_notify (inp : CycleInput) (ts : PyVal) (e : PyExc)
    (h : try_body inp ts = .error e) :
    run_cycles [inp, inp] ts =
      (ts, [[(format_loop_error e, send_message inp.send (format_loop_error e))],
            [(format_loop_error e, send_message inp.send (format_loop_error e))]]) := by
  simp [run_cycles, run_cycle, h]

/-- Claim C1, witness for the amended theorem: instantiated on two cycles
that both see HTTP status 500. -/
theorem C1_witness :
    (let e : PyExc := .apiError (API_REQUEST_ERROR
       (API_ENDPOINT_UNAVAILABLE 500 (.int 100)) (.int 100))
     let inp : CycleInput := ⟨.response 500 (.ok (.dict [])), fun _ => .success⟩
     run_cycles [inp, inp] (.int 100) =
       ((.int 100),
        [[(format_loop_error e, send_message inp.send (format_loop_error e))],
         [(format_loop_error e, send_message inp.send (format_loop_error e))]])) :=
  C1_failing_cycles_always_notify _ _ _ rfl

/-- Claim C2: in every cycle the timestamp cursor is left unchanged unless
the cycle completed successfully — the fetch returned a payload, validation
passed, current_date was present, and either the record list was empty or
the rendered first record was delivered — in which case it becomes the
response's current_date.  Consequently every failing cycle (fetch failure,
validation failure, missing current_date, parse failure, or failed delivery)
leaves the cursor unchanged. -/
theorem C2_cursor_unchanged_unless_success (inp : CycleInput) (ts : PyVal) :
    (run_cycle inp ts).1 = ts ∨
    ∃ response homeworks new_timestamp,
      get_api_answer inp.http ts = .ok response ∧
      check_response response = .ok homeworks ∧
      dict_get response "current_date" = Option.some new_timestamp ∧
      (run_cycle inp ts).1 = new_timestamp ∧
      (homeworks = [] ∨
        ∃ hw rest message, homeworks = hw :: rest ∧ parse_status hw = .ok message ∧
          send_message inp.send message = true) := by
  rcases run_cycle_cursor_spec inp ts with h |
    ⟨response, homeworks, nt, hga, hcr, hcd, _, hts, hshape⟩
  · exact Or.inl h
  · exact Or.inr ⟨response, homeworks, nt, hga, hcr, hcd, hts, hshape⟩

/-- Claim C3 (code bug): a non-OK HTTP status does NOT produce a distinct
HTTP-status error kind.  The raised HTTPError is caught by the
except RequestException clause of the same try block and re-raised as
APIError with the API_REQUEST_ERROR template — the same kind produced for
transport errors (second conjunct), and the same exception class as
API-reported errors (third conjunct, which fires with the API_ERROR_RESPONSE
template as the claim says).  The status code survives only inside the
wrapped message text. -/
theorem C3_http_status_not_a_distinct_kind :
    get_api_answer (.response 500 (.ok (.dict []))) (.int 0)
      = .error (.apiError (API_REQUEST_ERROR (API_ENDPOINT_UNAVAILABLE 500 (.int 0)) (.int 0))) ∧
    get_api_answer (.raises (.connectionError "connection refused")) (.int 0)
      = .error (.apiError (API_REQUEST_ERROR "connection refused" (.int 0))) ∧
    get_api_answer (.response 200 (.ok (.dict [("error", .str "server fail")]))) (.int 0)
      = .error (.apiError (API_ERROR_RESPONSE "server fail" (.int 0))) :=
  ⟨rfl, rfl, rfl⟩

/-- Claim C4, counterexample: the cursor can decrease within a run.  With all
credentials present, a run starting at time 100 whose single cycle succeeds
with an empty record list and current_date 50 ends with the cursor at 50,
strictly below its earlier value. -/
theorem C4_counterexample :
    homework.main ⟨Option.some "a", Option.some "b", Option.some "c"⟩
      [⟨.response 200 (.ok (.dict [("homeworks", .list []), ("current_date", .int 50)])),
        fun _ => .success⟩] 100
      = .ok ((.int 50), [[]]) ∧ (50 : Int) < 100 :=
  ⟨rfl, by norm_num⟩

/-- Claim C4, amended: after any cycle the cursor is either unchanged or
equal to the response's reported current_date, taken as-is; the code never
compares it with the old cursor, so the cursor is non-decreasing only when
the API reports current_date values at or above the cursor. -/
theorem C4_cursor_moves_only_to_current_date (inp : CycleInput) (ts : PyVal) :
    (run_cycle inp ts).1 = ts ∨
    ∃ response, get_api_answer inp.http ts = .ok response ∧
      dict_get response "current_date" = Option.some ((run_cycle inp ts).1) := by
  rcases run_cycle_cursor_spec inp ts with h |
    ⟨response, homeworks, nt, hga, _, hcd, _, hts, _⟩
  · exact Or.inl h
  · exact Or.inr ⟨response, hga, by rw [hts]; exact hcd⟩

/-- Claim C5: check_response raises TypeError on a non-dict payload, KeyError
with the message naming homeworks when the key is absent, and TypeError when
the homeworks value is not a list; and whenever (after a successful fetch)
check_response raises or current_date is absent, the cycle leaves the cursor
unchanged. -/
theorem C5_response_validation :
    (∀ v, isDict v = false →
      check_response v = .error (.typeError (API_RESPONSE_TYPE_ERROR (typeName v)))) ∧
    (∀ kvs, lookupKey "homeworks" kvs = Option.none →
      check_response (.dict kvs) = .error (.keyError MISSING_HOMEWORKS_KEY)) ∧
    (∀ kvs hv, lookupKey "homeworks" kvs = Option.some hv → isList hv = false →
      check_response (.dict kvs) = .error (.typeError (HOMEWORKS_TYPE_ERROR (typeName hv)))) ∧
    (∀ inp ts response, get_api_answer inp.http ts = .ok response →
      ((∃ e, check_response response = .error e) ∨
        dict_get response "current_date" = Option.none) →
      (run_cycle inp ts).1 = ts) := by
  refine ⟨?_, ?_, ?_, ?_⟩
  · intro v h
    cases v with
    | dict kvs => simp [isDict] at h
    | list xs => rfl
    | str s => rfl
    | int n => rfl
    | bool b => rfl
    | none => rfl
  · intro kvs h
    simp [check_response, h]
  · intro kvs hv h1 h2
    cases hv with
    | list xs => simp [isList] at h2
    | dict kvs2 => simp [check_response, h1]
    | str s => simp [check_response, h1]
    | int n => simp [check_response, h1]
    | bool b => simp [check_response, h1]
    | none => simp [check_response, h1]
  · intro inp ts response hga hbad
    rcases hbad with ⟨e, hcr⟩ | hcd
    · simp [run_cycle, try_body, process_response, hga, hcr]
    · cases hcr : check_response response with
      | error e => simp [run_cycle, try_body, process_response, hga, hcr]
      | ok hw => simp [run_cycle, try_body, process_response, hga, hcr, hcd, is_none]

/-- Claim C5, witness: each conjunct instantiated — a non-dict payload, a
dict without homeworks, a dict whose homeworks is a string, and a cycle
whose valid response lacks current_date. -/
theorem C5_witness :
    check_response (.int 7) = .error (.typeError (API_RESPONSE_TYPE_ERROR (typeName (.int 7)))) ∧
    check_response (.dict []) = .error (.keyError MISSING_HOMEWORKS_KEY) ∧
    check_response (.dict [("homeworks", .str "oops")])
      = .error (.typeError (HOMEWORKS_TYPE_ERROR (typeName (.str "oops")))) ∧
    (run_cycle ⟨.response 200 (.ok (.dict [("homeworks", .list [])])),
        fun _ => .success⟩ (.int 3)).1 = .int 3 :=
  ⟨C5_response_validation.1 _ rfl,
   C5_response_validation.2.1 _ rfl,
   C5_response_validation.2.2.1 _ _ rfl rfl,
   C5_response_validation.2.2.2 _ _ _ rfl (Or.inr rfl)⟩

/-- Claim C6: parse_status renders the fixed template for a record carrying
homework_name and a recognized status (first conjunct: the exact sentence for
lab1 and approved; second: the general template for the three verdicts);
it raises KeyError naming the key when homework_name or status is absent,
and ValueError with the unknown-status message when the status is not in the
verdict table — never returning a message in any failure case. -/
theorem C6_parse_status_behaviour :
    parse_status (.dict [("homework_name", .str "lab1"), ("status", .str "approved")])
      = .ok "Изменился статус проверки работы \"lab1\". Работа проверена: ревьюеру всё понравилось. Ура!" ∧
    (∀ kvs name status verdict,
      lookupKey "homework_name" kvs = Option.some (.str name) →
      lookupKey "status" kvs = Option.some (.str status) →
      HOMEWORK_VERDICTS status = Option.some verdict →
      parse_status (.dict kvs) = .ok (HOMEWORK_STATUS_CHANGED name verdict)) ∧
    (∀ kvs, lookupKey "homework_name" kvs = Option.none →
      parse_status (.dict kvs) = .error (.keyError (MISSING_KEY_ERROR "homework_name"))) ∧
    (∀ kvs v, lookupKey "homework_name" kvs = Option.some v →
      lookupKey "status" kvs = Option.none →
      parse_status (.dict kvs) = .error (.keyError (MISSING_KEY_ERROR "status"))) ∧
    (∀ kvs v status, lookupKey "homework_name" kvs = Option.some v →
      lookupKey "status" kvs = Option.some (.str status) →
      HOMEWORK_VERDICTS status = Option.none →
      parse_status (.dict kvs) = .error (.valueError (UNKNOWN_STATUS_ERROR status))) := by
  refine ⟨rfl, ?_, ?_, ?_, ?_⟩
  · intro kvs name status verdict h1 h2 h3
    simp [parse_status, pyIn, pySubscript, verdict_lookup, pyStr, h1, h2, h3]
  · intro kvs h
    simp [parse_status, pyIn, h]
  · intro kvs v h1 h2
    simp [parse_status, pyIn, h1, h2]
  · intro kvs v status h1 h2 h3
    simp [parse_status, pyIn, pySubscript, verdict_lookup, pyStr, h1, h2, h3]

/-- Claim C6, witness: the general template conjunct instantiated on the
lab1 and approved record. -/
theorem C6_witness :
    parse_status (.dict [("homework_name", .str "lab1"), ("status", .str "approved")])
      = .ok (HOMEWORK_STATUS_CHANGED "lab1" "Работа проверена: ревьюеру всё понравилось. Ура!") :=
  C6_parse_status_behaviour.2.1 _ "lab1" "approved" _ rfl rfl rfl

/-- Claim C7: a cycle whose valid response carries an empty record list and a
current_date value sends no notification and advances the cursor to that
value (the implemented policy).  Carrying a value means the key is present
and not null: a null current_date reads back as Python None through
response.get, so the is None continue path treats it exactly like an absent
key — the cycle aborts with the cursor unchanged, which is the C5 path. -/
theorem C7_empty_homeworks (inp : CycleInput) (ts response new_timestamp : PyVal)
    (hga : get_api_answer inp.http ts = .ok response)
    (hcr : check_response response = .ok [])
    (hcd : dict_get response "current_date" = Option.some new_timestamp)
    (hnn : is_none new_timestamp = false) :
    run_cycle inp ts = (new_timestamp, []) := by
  simp [run_cycle, try_body, process_response, hga, hcr, hcd, hnn]

/-- Claim C7, witness: an empty record list with current_date 1700000000
advances the cursor from 5 to 1700000000 with no attempts. -/
theorem C7_witness :
    run_cycle ⟨.response 200 (.ok (.dict [("homeworks", .list []),
        ("current_date", .int 1700000000)])), fun _ => .success⟩ (.int 5)
      = (.int 1700000000, []) :=
  C7_empty_homeworks _ _ _ _ rfl rfl rfl rfl

/-- Claim C8: when any of the three configuration values is missing (falsy),
main raises ValueError listing the missing names before anything else: the
error result carries no cycle trace, so no cycle and no network call
happened (the uncaught ValueError makes the Python process exit non-zero);
when all three are present, the check passes and the loop is entered. -/
theorem C8_startup_check (env : Env) (inputs : List CycleInput) (start_time : Int) :
    (missing_tokens env ≠ [] →
      homework.main env inputs start_time
        = .error (.valueError (MISSING_ENV_VARS (missing_tokens env)))) ∧
    (missing_tokens env = [] →
      homework.main env inputs start_time = .ok (run_cycles inputs (.int start_time))) := by
  constructor
  · intro h
    simp [homework.main, check_tokens, h]
  · intro h
    simp [homework.main, check_tokens, h]

/-- Claim C8, witness: an environment with PRACTICUM_TOKEN unset fails at
startup; an environment with all three present enters the loop. -/
theorem C8_witness :
    homework.main ⟨Option.none, Option.some "t", Option.some "c"⟩ [] 0
      = .error (.valueError (MISSING_ENV_VARS
          (missing_tokens ⟨Option.none, Option.some "t", Option.some "c"⟩))) ∧
    homework.main ⟨Option.some "a", Option.some "t", Option.some "c"⟩ [] 0
      = .ok (run_cycles [] (.int 0)) :=
  ⟨(C8_startup_check _ [] 0).1 (by decide),
   (C8_startup_check _ [] 0).2 (by decide)⟩

/-- Claim C9: send_message is a total function of the chat client behaviour —
the except Exception clause converts every raised exception into the return
value false, and a normal return yields true; no exception ever propagates
to the caller. -/
theorem C9_send_message_never_raises (send : String → SendOutcome) (message : String) :
    (send_message send message = true ↔ send message = .success) ∧
    (send_message send message = false ↔ ∃ err, send message = .raise err) := by
  cases h : send message with
  | success => simp [send_message, h]
  | raise err => simp [send_message, h]

/-- Claim C10: a configuration variable set to the empty string is treated
exactly like an absent one — not globals()[name] is true for both — so for
each of the three variables, the missing list is the same as with the
variable unset, the variable is listed among the missing ones, and
check_tokens raises the same fatal ValueError. -/
theorem C10_empty_value_is_missing (t1 t2 t3 : Option String) :
    (missing_tokens ⟨Option.some "", t2, t3⟩ = missing_tokens ⟨Option.none, t2, t3⟩ ∧
      "PRACTICUM_TOKEN" ∈ missing_tokens ⟨Option.some "", t2, t3⟩ ∧
      check_tokens ⟨Option.some "", t2, t3⟩ = check_tokens ⟨Option.none, t2, t3⟩ ∧
      ∃ e, check_tokens ⟨Option.some "", t2, t3⟩ = .error e) ∧
    (missing_tokens ⟨t1, Option.some "", t3⟩ = missing_tokens ⟨t1, Option.none, t3⟩ ∧
      "TELEGRAM_TOKEN" ∈ missing_tokens ⟨t1, Option.some "", t3⟩ ∧
      check_tokens ⟨t1, Option.some "", t3⟩ = check_tokens ⟨t1, Option.none, t3⟩ ∧
      ∃ e, check_tokens ⟨t1, Option.some "", t3⟩ = .error e) ∧
    (missing_tokens ⟨t1, t2, Option.some ""⟩ = missing_tokens ⟨t1, t2, Option.none⟩ ∧
      "TELEGRAM_CHAT_ID" ∈ missing_tokens ⟨t1, t2, Option.some ""⟩ ∧
      check_tokens ⟨t1, t2, Option.some ""⟩ = check_tokens ⟨t1, t2, Option.none⟩ ∧
      ∃ e, check_tokens ⟨t1, t2, Option.some ""⟩ = .error e) := by
  have e1 : missing_tokens ⟨Option.some "", t2, t3⟩ = missing_tokens ⟨Option.none, t2, t3⟩ := by
    simp [missing_tokens_eq, env_truthy]
  have e2 : missing_tokens ⟨t1, Option.some "", t3⟩ = missing_tokens ⟨t1, Option.none, t3⟩ := by
    simp [missing_tokens_eq, env_truthy]
  have e3 : missing_tokens ⟨t1, t2, Option.some ""⟩ = missing_tokens ⟨t1, t2, Option.none⟩ := by
    simp [missing_tokens_eq, env_truthy]
  refine ⟨⟨e1, ?_, ?_, ?_⟩, ⟨e2, ?_, ?_, ?_⟩, ⟨e3, ?_, ?_, ?_⟩⟩
  · simp [missing_tokens, env_truthy]
  · simp only [check_tokens, e1]
  · simp [missing_tokens, env_truthy, check_tokens]
  · simp [missing_tokens, env_truthy]
  · simp only [check_tokens, e2]
  · simp [missing_tokens, env_truthy, check_tokens]
  · simp [missing_tokens, env_truthy]
  · simp only [check_tokens, e3]
  · simp [missing_tokens, env_truthy, check_tokens]
